import Mathlib

/-!
Verification of the session configuration resolver and recording/activity
session lifecycle of the voice-driven assistant front-end.

The definitions below are a shallow embedding of the TypeScript source:
- `addLog` embeds the `addLog` state updater of `UnifiedDashboard.tsx`
  (identical in `VoiceManagerNew.tsx`): prepend the new entry, truncate to
  50 entries, then sort the retained buffer descending by the parsed
  timestamp key.
- `resolve` embeds the platform-detection `useEffect` of
  `UnifiedDashboard.tsx` (navigation state, then localStorage records,
  then legacy cookies, then the unconfigured fallback).
- `startRecording` / `stopRecording` embed the recording lifecycle
  handlers, with the outcomes of the awaited external calls (audio device,
  backend gateway, JSON parse) made explicit parameters.
- `handleToolChange`, `confirmSwitchApp`, `configFormSubmit` and
  `configureAppSubmit` embed the remaining session-mutating operations.
-/

namespace Agilow

/-- The `type` field of a `LogEntry` (`UnifiedDashboard.tsx` lines 18-29). -/
inductive LogType
  | info | success | warning | error | voice | transcribed | task | dueDate
  deriving DecidableEq, Repr

/-- A log entry as retained by the activity log.  The `timestamp` is the
string produced by `new Date().toLocaleTimeString()`; `id` and `message`
are kept abstract as strings; `details` is irrelevant to the ordering and
capacity invariants and is omitted from the buffer model. -/
structure LogEntry where
  id : String
  timestamp : String
  type : LogType
  message : String
  deriving DecidableEq, Repr

/-- The descending comparison used by the sort in `addLog`:
`timeB - timeA` on the values of `new Date("1970-01-01 " + timestamp).getTime()`.
The locale-dependent parse is abstracted as a key function `tsKey`. -/
def logGE (tsKey : String → Int) (a b : LogEntry) : Prop :=
  tsKey b.timestamp ≤ tsKey a.timestamp

instance (tsKey : String → Int) : DecidableRel (logGE tsKey) := fun a b =>
  inferInstanceAs (Decidable (tsKey b.timestamp ≤ tsKey a.timestamp))

/-- Embedding of `addLog` (`UnifiedDashboard.tsx` lines 198-219): the functional update
applied to the previous log list — `[newLog, ...prev].slice(0, 50)`
followed by `.sort((a, b) => timeB - timeA)` (a sort that is descending in
the parsed timestamp key). -/
def addLog (tsKey : String → Int) (newLog : LogEntry) (prev : List LogEntry) :
    List LogEntry :=
  List.insertionSort (logGE tsKey) ((newLog :: prev).take 50)

/-- The activity log produced by a sequence of `addLog` calls starting from
the initial empty log. -/
def activityLogAfter (tsKey : String → Int) (entries : List LogEntry) :
    List LogEntry :=
  entries.foldl (fun logs e => addLog tsKey e logs) []

/-- C1: For every sequence of append (addLog) calls, the activity log after
each call holds at most 50 entries and is sorted newest-first by its
timestamp ordering key.  Stated in the strongest form: after any single
`addLog` call on any previous buffer, the result has at most 50 entries
and is sorted descending in the timestamp key; hence the property holds
after every call of every sequence. -/
theorem addLog_bounded_sorted (tsKey : String → Int) (newLog : LogEntry)
    (prev : List LogEntry) :
    (addLog tsKey newLog prev).length ≤ 50 ∧
      (addLog tsKey newLog prev).Sorted (logGE tsKey) := by
  constructor
  · rw [addLog, List.length_insertionSort]
    exact List.length_take_le 50 (newLog :: prev)
  · haveI : IsTotal LogEntry (logGE tsKey) :=
      ⟨fun a b => le_total (tsKey b.timestamp) (tsKey a.timestamp)⟩
    haveI : IsTrans LogEntry (logGE tsKey) :=
      ⟨fun _ _ _ hab hbc => le_trans hbc hab⟩
    exact List.sorted_insertionSort (logGE tsKey) _

/-- Trello variant of the platform config (`UnifiedDashboard.tsx` lines 31-35). -/
structure TrelloConfig where
  apiKey : String
  token : String
  boardId : String
  deriving DecidableEq, Repr

/-- Linear variant of the platform config (`UnifiedDashboard.tsx` lines 37-40). -/
structure LinearConfig where
  apiKey : String
  workspaceId : String
  deriving DecidableEq, Repr

/-- Asana variant of the platform config (`UnifiedDashboard.tsx` lines 42-45). -/
structure AsanaConfig where
  personalAccessToken : String
  projectId : String
  deriving DecidableEq, Repr

/-- The tagged union of the three variants. -/
inductive PlatformConfig
  | trello : TrelloConfig → PlatformConfig
  | linear : LinearConfig → PlatformConfig
  | asana : AsanaConfig → PlatformConfig
  deriving DecidableEq, Repr

/-- A variant is complete iff every one of its fields is a non-empty string. -/
def PlatformConfig.complete : PlatformConfig → Bool
  | .trello c => c.apiKey ≠ "" && c.token ≠ "" && c.boardId ≠ ""
  | .linear c => c.apiKey ≠ "" && c.workspaceId ≠ ""
  | .asana c => c.personalAccessToken ≠ "" && c.projectId ≠ ""

/-- The ephemeral navigation payload (`location.state` as read at
`UnifiedDashboard.tsx` line 74: `{ platform?: string; config?: any }`). -/
structure NavState where
  platform : Option String
  config : Option PlatformConfig
  deriving DecidableEq, Repr

/-- Tier-2 durable keyed storage: the `linear_config` / `asana_config`
localStorage records.  `none` models an absent record; `some none` a record
that is present but fails `JSON.parse`; `some (some c)` a record parsing
to `c`. -/
structure LocalStore where
  linear_config : Option (Option LinearConfig)
  asana_config : Option (Option AsanaConfig)
  deriving DecidableEq, Repr

/-- Tier-3 legacy cookie storage: the seven named cookies the code reads
and writes.  `none` models an absent cookie. -/
structure CookieStore where
  apiKey : Option String
  token : Option String
  boardId : Option String
  workspaceId : Option String
  personalAccessToken : Option String
  projectId : Option String
  platform : Option String
  deriving DecidableEq, Repr

/-- JavaScript truthiness of an optional string: `undefined` and the empty
string are falsy, every other string is truthy. -/
def strTruthy : Option String → Bool
  | none => false
  | some s => s ≠ ""

/-- The string value of an optional cookie once its truthiness has been
established (the TypeScript narrows it to `string`). -/
def getStr (o : Option String) : String :=
  o.getD ""

/-- Embedding of `s.charAt(0).toUpperCase() + s.slice(1)` as used in the log messages. -/
def capitalize (s : String) : String :=
  match s.data with
  | [] => ""
  | c :: rest => String.mk (c.toUpper :: rest)

/-- The result of the platform-detection effect: the dashboard state it
leaves behind (tool, config, configured flag, whether the config form is
shown), the `addLog` entries it emits, and the number of `console.error`
calls it makes. -/
structure ResolveResult where
  selectedTool : Option String
  platformConfig : Option PlatformConfig
  isConfigured : Bool
  showConfigForm : Bool
  logs : List (LogType × String)
  consoleErrors : Nat
  deriving DecidableEq, Repr

/-- The unconfigured fallback branch (`UnifiedDashboard.tsx` lines 152-154). -/
def resolveFallback : ResolveResult :=
  { selectedTool := none, platformConfig := none, isConfigured := false,
    showConfigForm := true,
    logs := [(.info, "Voice Manager initialized - Please configure your platform")],
    consoleErrors := 0 }

/-- The tier-3 cookie branch (`UnifiedDashboard.tsx` lines 115-150). -/
def resolveCookies (ck : CookieStore) : ResolveResult :=
  if strTruthy ck.platform then
    if getStr ck.platform = "trello" then
      if strTruthy ck.apiKey && strTruthy ck.token && strTruthy ck.boardId then
        { selectedTool := some "trello",
          platformConfig := some (.trello ⟨getStr ck.apiKey, getStr ck.token, getStr ck.boardId⟩),
          isConfigured := true, showConfigForm := false,
          logs := [(.info, "Connected to Trello")], consoleErrors := 0 }
      else resolveFallback
    else if getStr ck.platform = "linear" then
      if strTruthy ck.apiKey && strTruthy ck.workspaceId then
        { selectedTool := some "linear",
          platformConfig := some (.linear ⟨getStr ck.apiKey, getStr ck.workspaceId⟩),
          isConfigured := true, showConfigForm := false,
          logs := [(.info, "Connected to Linear")], consoleErrors := 0 }
      else resolveFallback
    else if getStr ck.platform = "asana" then
      if strTruthy ck.personalAccessToken && strTruthy ck.projectId then
        { selectedTool := some "asana",
          platformConfig := some (.asana ⟨getStr ck.personalAccessToken, getStr ck.projectId⟩),
          isConfigured := true, showConfigForm := false,
          logs := [(.info, "Connected to Asana")], consoleErrors := 0 }
      else resolveFallback
    else resolveFallback
  else resolveFallback

/-- The tier-2 `asana_config` localStorage branch
(`UnifiedDashboard.tsx` lines 101-113), falling through to cookies. -/
def resolveAsanaStore (ls : LocalStore) (ck : CookieStore) : ResolveResult :=
  match ls.asana_config with
  | some (some c) =>
      { selectedTool := some "asana", platformConfig := some (.asana c),
        isConfigured := true, showConfigForm := false,
        logs := [(.info, "Connected to Asana")], consoleErrors := 0 }
  | some none =>
      let r := resolveCookies ck
      { r with consoleErrors := r.consoleErrors + 1 }
  | none => resolveCookies ck

/-- The tier-2 `linear_config` localStorage branch
(`UnifiedDashboard.tsx` lines 86-99), falling through to the asana branch. -/
def resolveStore (ls : LocalStore) (ck : CookieStore) : ResolveResult :=
  match ls.linear_config with
  | some (some c) =>
      { selectedTool := some "linear", platformConfig := some (.linear c),
        isConfigured := true, showConfigForm := false,
        logs := [(.info, "Connected to Linear")], consoleErrors := 0 }
  | some none =>
      let r := resolveAsanaStore ls ck
      { r with consoleErrors := r.consoleErrors + 1 }
  | none => resolveAsanaStore ls ck

/-- The platform-detection `useEffect` (`UnifiedDashboard.tsx` lines
73-155) as a function of a snapshot of the three persistence tiers:
navigation state first, then localStorage, then cookies, then the
unconfigured fallback. -/
def resolve (nav : Option NavState) (ls : LocalStore) (ck : CookieStore) :
    ResolveResult :=
  match nav with
  | some st =>
      if strTruthy st.platform then
        { selectedTool := some (getStr st.platform),
          platformConfig := st.config,
          isConfigured := st.config.isSome,
          showConfigForm := false,
          logs := [(.info, "Connected to " ++ capitalize (getStr st.platform))],
          consoleErrors := 0 }
      else resolveStore ls ck
  | none => resolveStore ls ck

/-- The recording status enumeration (`UnifiedDashboard.tsx` line 16). -/
inductive RecordingStatus
  | idle | recording | processing
  deriving DecidableEq, Repr

/-- One element of the backend response's `results` array
(gateway contract: `{ success, operation?, task?, error? }`). -/
structure TaskResult where
  success : Bool
  operation : Option String
  task : Option String
  error : Option String
  deriving DecidableEq, Repr

/-- The parsed backend gateway response body
(`{ transcript?: string, results?: [...] }`).  `results = some rs` models
`Array.isArray(data.results)` holding. -/
structure BackendResponse where
  transcript : Option String
  results : Option (List TaskResult)
  deriving DecidableEq, Repr

/-- Outcome of the awaited external calls inside `stopRecording`:
the audio-recorder stop may throw, the gateway send may throw, the
response body may fail to parse as JSON, or a parsed response arrives. -/
inductive StopOutcome
  | stopFails (msg : String)
  | sendFails (msg : String)
  | parseFails
  | ok (resp : BackendResponse)
  deriving DecidableEq, Repr

/-- Outcome of the awaited device acquisition inside `startRecording`. -/
inductive StartOutcome
  | ok
  | deviceFails (msg : String)
  deriving DecidableEq, Repr

/-- The dashboard component state together with the persistence tiers it
reads and writes.  `emitted` records the `addLog` calls in order;
`deviceAcquisitions` counts attempts to acquire the audio capture device;
`intervalActive` models `recordingInterval.current !== null`; `route`
models the router location after a `navigate` call. -/
structure DashState where
  selectedTool : Option String
  platformConfig : Option PlatformConfig
  isConfigured : Bool
  recordingStatus : RecordingStatus
  recordingTime : Nat
  intervalActive : Bool
  showConfigForm : Bool
  showSwitchConfirm : Bool
  latestResponse : String
  emitted : List (LogType × String)
  deviceAcquisitions : Nat
  ls : LocalStore
  ck : CookieStore
  nav : Option NavState
  route : String
  deriving DecidableEq, Repr

/-- Embedding of `startRecording` (`UnifiedDashboard.tsx` lines 221-234).  The device
acquisition is always attempted; on failure only an error log is emitted,
on success the status becomes `recording`, the elapsed-time counter is
reset and the one-second tick is started. -/
def startRecording (o : StartOutcome) (s : DashState) : DashState :=
  match o with
  | .deviceFails msg =>
      { s with deviceAcquisitions := s.deviceAcquisitions + 1,
               emitted := s.emitted ++ [(.error, "Failed to start recording: " ++ msg)] }
  | .ok =>
      { s with deviceAcquisitions := s.deviceAcquisitions + 1,
               recordingStatus := .recording,
               recordingTime := 0,
               emitted := s.emitted ++ [(.info, "Listening...")],
               intervalActive := true }

/-- The log entry produced for one element of `data.results`
(`UnifiedDashboard.tsx` lines 266-281). -/
def taskResultLog (r : TaskResult) : LogType × String :=
  if r.success then
    (.task,
      "Task " ++
        (if r.operation = some "create" then "created"
         else match r.operation with
              | some op => op
              | none => "undefined") ++
        (if strTruthy r.task then ": " ++ getStr r.task else ""))
  else
    (.error,
      "Task operation failed" ++
        (if strTruthy r.task then " for: " ++ getStr r.task else "") ++
        (if strTruthy r.error then " - " ++ getStr r.error else ""))

/-- Embedding of `stopRecording` (`UnifiedDashboard.tsx` lines 236-289).  Returns the
post-state and the list of values passed to `setRecordingStatus` during
the call, in order.  On a stop failure the catch block logs an error and
sets the status to `idle` (without touching the interval); otherwise the
status is set to `idle`, logs are emitted, the interval is cleared and the
timer reset, and the gateway response (or its failure) is handled. -/
def stopRecording (o : StopOutcome) (s : DashState) :
    DashState × List RecordingStatus :=
  match o with
  | .stopFails msg =>
      ({ s with emitted := s.emitted ++ [(.error, "Failed to stop recording: " ++ msg)],
                recordingStatus := .idle }, [.idle])
  | .sendFails msg =>
      ({ s with recordingStatus := .idle,
                intervalActive := false,
                recordingTime := 0,
                emitted := s.emitted ++
                  [(.success, "Processing..."), (.voice, "Voice received"),
                   (.error, "Failed to send audio: " ++ msg)] }, [.idle])
  | .parseFails =>
      ({ s with recordingStatus := .idle,
                intervalActive := false,
                recordingTime := 0,
                emitted := s.emitted ++
                  [(.success, "Processing..."), (.voice, "Voice received"),
                   (.error, "Failed to parse backend response as JSON")] }, [.idle])
  | .ok resp =>
      let s1 : DashState :=
        { s with recordingStatus := .idle,
                 intervalActive := false,
                 recordingTime := 0,
                 emitted := s.emitted ++
                   [(.success, "Processing..."), (.voice, "Voice received")] }
      let s2 : DashState :=
        if strTruthy resp.transcript then
          { s1 with emitted := s1.emitted ++
                      [(.transcribed, "Transcribed: " ++ getStr resp.transcript)],
                    latestResponse := getStr resp.transcript }
        else s1
      let s3 : DashState :=
        match resp.results with
        | some rs => { s2 with emitted := s2.emitted ++ rs.map taskResultLog }
        | none => s2
      (s3, [.idle])

/-- The one-second repeating tick (`setInterval` callback,
`UnifiedDashboard.tsx` lines 228-230): while the interval handle is live
it increments the elapsed-time counter. -/
def tick (s : DashState) : DashState :=
  if s.intervalActive then { s with recordingTime := s.recordingTime + 1 } else s

/-- A click on the record button (`UnifiedDashboard.tsx` lines 482-486):
the button is `disabled={!isConfigured}`, so a click while unconfigured
does nothing; otherwise it dispatches `startRecording` when idle and
`stopRecording` when not. -/
def recordButtonClick (so : StartOutcome) (po : StopOutcome) (s : DashState) :
    DashState :=
  if !s.isConfigured then s
  else if s.recordingStatus = .idle then startRecording so s
  else (stopRecording po s).1

/-- The fall-through tail of `handleToolChange`
(`UnifiedDashboard.tsx` lines 324-326). -/
def toolChangeFallback (value : String) (s0 : DashState) : DashState :=
  { s0 with showConfigForm := true, isConfigured := false,
            emitted := s0.emitted ++ [(.info, "Selected " ++ capitalize value)] }

/-- Embedding of `handleToolChange` (`UnifiedDashboard.tsx` lines 291-327).  A stored
record present but unparseable makes the un-guarded `JSON.parse` throw,
so only the preceding `setSelectedTool` takes effect. -/
def handleToolChange (value : String) (s : DashState) : DashState :=
  let s0 : DashState := { s with selectedTool := some value }
  if value = "linear" then
    match s.ls.linear_config with
    | some (some c) =>
        { s0 with platformConfig := some (.linear c), isConfigured := true,
                  showConfigForm := false,
                  emitted := s0.emitted ++ [(.info, "Loaded Linear config from localStorage")] }
    | some none => s0
    | none => toolChangeFallback value s0
  else if value = "asana" then
    match s.ls.asana_config with
    | some (some c) =>
        { s0 with platformConfig := some (.asana c), isConfigured := true,
                  showConfigForm := false,
                  emitted := s0.emitted ++ [(.info, "Loaded Asana config from localStorage")] }
    | some none => s0
    | none => toolChangeFallback value s0
  else if value = "trello" then
    if strTruthy s.ck.apiKey && strTruthy s.ck.token && strTruthy s.ck.boardId then
      { s0 with platformConfig :=
                  some (.trello ⟨getStr s.ck.apiKey, getStr s.ck.token, getStr s.ck.boardId⟩),
                isConfigured := true, showConfigForm := false,
                emitted := s0.emitted ++ [(.info, "Loaded Trello config from cookies")] }
    else toolChangeFallback value s0
  else toolChangeFallback value s0

/-- The cookie store with every one of the seven keys removed. -/
def emptyCookies : CookieStore :=
  ⟨none, none, none, none, none, none, none⟩

/-- Embedding of `confirmSwitchApp` (`UnifiedDashboard.tsx` lines 347-364): removes the
seven cookies, clears the in-memory tool/config/configured state, closes
the confirmation dialog, logs, and navigates to platform selection.
localStorage is deliberately not touched. -/
def confirmSwitchApp (s : DashState) : DashState :=
  { s with ck := emptyCookies,
           selectedTool := none,
           isConfigured := false,
           platformConfig := none,
           showSwitchConfirm := false,
           emitted := s.emitted ++ [(.info, "Switched to different app")],
           route := "/select-app" }

/-- Embedding of `handleConfigSave` (`UnifiedDashboard.tsx` lines 329-334). -/
def handleConfigSave (config : PlatformConfig) (s : DashState) : DashState :=
  { s with platformConfig := some config, isConfigured := true,
           showConfigForm := false,
           emitted := s.emitted ++
             [(.success, capitalize (getStr s.selectedTool) ++
                 " configuration saved successfully")] }

/-- Embedding of `ConfigurationForm.handleSubmit` (ConfigurationForm source lines
47-78) applied to the dashboard it reports to: for the selected tool's
variant, if every field is non-empty the config is handed to
`onConfigSave` and persisted (localStorage record for Linear/Asana,
cookies plus the `platform` marker always); otherwise nothing happens. -/
def configFormSubmit (tool : String) (config : PlatformConfig) (s : DashState) :
    DashState :=
  if tool = "trello" then
    match config with
    | .trello c =>
        if c.apiKey ≠ "" && c.token ≠ "" && c.boardId ≠ "" then
          let s1 := handleConfigSave (.trello c) s
          { s1 with ck := { s1.ck with apiKey := some c.apiKey, token := some c.token,
                                       boardId := some c.boardId, platform := some "trello" } }
        else s
    | _ => s
  else if tool = "linear" then
    match config with
    | .linear c =>
        if c.apiKey ≠ "" && c.workspaceId ≠ "" then
          let s1 := handleConfigSave (.linear c) s
          { s1 with ls := { s1.ls with linear_config := some (some c) },
                    ck := { s1.ck with apiKey := some c.apiKey,
                                       workspaceId := some c.workspaceId,
                                       platform := some "linear" } }
        else s
    | _ => s
  else if tool = "asana" then
    match config with
    | .asana c =>
        if c.personalAccessToken ≠ "" && c.projectId ≠ "" then
          let s1 := handleConfigSave (.asana c) s
          { s1 with ls := { s1.ls with asana_config := some (some c) },
                    ck := { s1.ck with personalAccessToken := some c.personalAccessToken,
                                       projectId := some c.projectId,
                                       platform := some "asana" } }
        else s
    | _ => s
  else s

/-- The required field names of each app on the configure page
(`ConfigureApp.tsx` `appConfigs`; every listed field has `required: true`). -/
def configureAppFields : String → List String
  | "linear" => ["apiKey", "workspaceId"]
  | "asana" => ["personalAccessToken", "projectId"]
  | _ => []

/-- Embedding of `ConfigureApp.handleSubmit` (`ConfigureApp.tsx` lines 114-148) as a
function of the form data (a record of field values; an absent field reads
as the empty string, which is falsy like `undefined`).  Returns the
localStorage state, the navigation payload sent to `/dashboard` on
success, and whether the missing-fields alert fired. -/
def configureAppSubmit (appId : String) (formData : String → String)
    (ls : LocalStore) : LocalStore × Option NavState × Bool :=
  let missing := (configureAppFields appId).filter (fun f => formData f = "")
  if missing ≠ [] then (ls, none, true)
  else if appId = "linear" then
    ({ ls with linear_config := some (some ⟨formData "apiKey", formData "workspaceId"⟩) },
     some ⟨some "linear", some (.linear ⟨formData "apiKey", formData "workspaceId"⟩)⟩,
     false)
  else if appId = "asana" then
    let c : AsanaConfig := ⟨formData "personalAccessToken", formData "projectId"⟩
    ({ ls with asana_config := some (some c) },
     some ⟨some "asana", some (.asana c)⟩,
     false)
  else (ls, none, false)

/-- Whether the navigation payload makes the detection effect return before
reading any storage tier (`state && state.platform` truthy). -/
def navShortCircuits : Option NavState → Bool
  | some st => strTruthy st.platform
  | none => false

/-- The platform implied by the tier-2 durable records: `linear` if a
parseable `linear_config` record exists, else `asana` if a parseable
`asana_config` record exists, else none. -/
def tier2Platform (ls : LocalStore) : Option String :=
  match ls.linear_config with
  | some (some _) => some "linear"
  | _ =>
    match ls.asana_config with
    | some (some _) => some "asana"
    | _ => none

/-- The session-visible part of a resolution result: everything except the
`console.error` count. -/
def ResolveResult.session (r : ResolveResult) :
    Option String × Option PlatformConfig × Bool × Bool × List (LogType × String) :=
  (r.selectedTool, r.platformConfig, r.isConfigured, r.showConfigForm, r.logs)

/-- Replace every present-but-unparseable tier-2 record by an absent one. -/
def LocalStore.scrub (ls : LocalStore) : LocalStore :=
  { linear_config := match ls.linear_config with
                     | some none => none
                     | o => o,
    asana_config := match ls.asana_config with
                    | some none => none
                    | o => o }

/-- How many unparseable tier-2 records the detection effect actually
reads: none if the navigation payload short-circuits; otherwise the
`linear_config` read (always reached) and the `asana_config` read (reached
unless `linear_config` parsed). -/
def parseFailuresRead (nav : Option NavState) (ls : LocalStore) : Nat :=
  if navShortCircuits nav then 0
  else
    (match ls.linear_config with
     | some none => 1
     | _ => 0) +
    (match ls.linear_config with
     | some (some _) => 0
     | _ =>
       match ls.asana_config with
       | some none => 1
       | _ => 0)

/-- A baseline dashboard state used to build concrete witnesses. -/
def baseState : DashState :=
  { selectedTool := none, platformConfig := none, isConfigured := false,
    recordingStatus := .idle, recordingTime := 0, intervalActive := false,
    showConfigForm := false, showSwitchConfirm := false,
    latestResponse := "How can I help you today?", emitted := [],
    deviceAcquisitions := 0, ls := ⟨none, none⟩, ck := emptyCookies,
    nav := none, route := "/dashboard" }

lemma getStr_ne_of_strTruthy {o : Option String} (h : strTruthy o = true) :
    getStr o ≠ "" := by
  cases o with
  | none => simp [strTruthy] at h
  | some s => simpa [strTruthy, getStr] using h

lemma resolveCookies_complete (ck : CookieStore) (c : PlatformConfig)
    (h : (resolveCookies ck).platformConfig = some c) : c.complete = true := by
  rw [resolveCookies] at h
  split_ifs at h with h1 h2 h3 h4 h5 h6 h7 <;>
    simp [resolveFallback] at h <;> subst h <;>
    simp only [Bool.and_eq_true] at *
  · simp [PlatformConfig.complete, getStr_ne_of_strTruthy h3.1.1,
      getStr_ne_of_strTruthy h3.1.2, getStr_ne_of_strTruthy h3.2]
  · simp [PlatformConfig.complete, getStr_ne_of_strTruthy h5.1,
      getStr_ne_of_strTruthy h5.2]
  · simp [PlatformConfig.complete, getStr_ne_of_strTruthy h7.1,
      getStr_ne_of_strTruthy h7.2]

lemma resolveCookies_isSome (ck : CookieStore)
    (h : (resolveCookies ck).isConfigured = true) :
    (resolveCookies ck).platformConfig.isSome = true := by
  rw [resolveCookies] at *
  split_ifs at * <;> simp_all [resolveFallback]

lemma resolveAsanaStore_congr (ls ls' : LocalStore) (ck : CookieStore)
    (h : ls.asana_config = ls'.asana_config) :
    resolveAsanaStore ls ck = resolveAsanaStore ls' ck := by
  simp [resolveAsanaStore, h]

/-- C5: For every user start action taken while `isConfigured` is false,
the action is refused: the record button is disabled, so the state is
unchanged (in particular the recording status) and no audio-device
acquisition is attempted, whatever the would-be outcomes of the
dispatched handlers. -/
theorem start_refused_when_unconfigured (so : StartOutcome) (po : StopOutcome)
    (s : DashState) (h : s.isConfigured = false) :
    recordButtonClick so po s = s ∧
      (recordButtonClick so po s).deviceAcquisitions = s.deviceAcquisitions := by
  have : recordButtonClick so po s = s := by simp [recordButtonClick, h]
  exact ⟨this, by rw [this]⟩

/-- Witness for C5 at a concrete unconfigured state. -/
theorem start_refused_when_unconfigured_witness :
    recordButtonClick .ok (.parseFails) baseState = baseState ∧
      (recordButtonClick .ok (.parseFails) baseState).deviceAcquisitions =
        baseState.deviceAcquisitions :=
  start_refused_when_unconfigured .ok (.parseFails) baseState rfl

/-- C9: For every prior state, `confirmSwitchApp` clears the platform, the
config and the configured flag, closes the confirmation dialog, deletes
every tier-3 cookie key, and leaves the tier-1 navigation payload and the
tier-2 durable records unchanged. -/
theorem confirmSwitchApp_clears (s : DashState) :
    (confirmSwitchApp s).selectedTool = none ∧
      (confirmSwitchApp s).platformConfig = none ∧
      (confirmSwitchApp s).isConfigured = false ∧
      (confirmSwitchApp s).ck = emptyCookies ∧
      (confirmSwitchApp s).ls = s.ls ∧
      (confirmSwitchApp s).nav = s.nav := by
  simp [confirmSwitchApp]

/-- C10: If the navigation payload carries a platform but no config,
resolution adopts that platform, leaves `isConfigured` false with no
config, and its result does not depend on the tier-2 records or the
tier-3 cookies at all. -/
theorem resolve_nav_platform_without_config (p : String) (ls ls' : LocalStore)
    (ck ck' : CookieStore) (hp : p ≠ "") :
    (resolve (some ⟨some p, none⟩) ls ck).selectedTool = some p ∧
      (resolve (some ⟨some p, none⟩) ls ck).isConfigured = false ∧
      (resolve (some ⟨some p, none⟩) ls ck).platformConfig = none ∧
      resolve (some ⟨some p, none⟩) ls ck = resolve (some ⟨some p, none⟩) ls' ck' := by
  simp [resolve, strTruthy, getStr, hp]

/-- Witness for C10: navigation payload carrying platform `trello` with no
config wins even when both other tiers hold complete configs. -/
theorem resolve_nav_platform_without_config_witness :
    (resolve (some ⟨some "trello", none⟩)
        ⟨some (some ⟨"k", "w"⟩), some (some ⟨"p", "j"⟩)⟩
        ⟨some "k", some "t", some "b", some "w", some "p", some "j", some "trello"⟩).selectedTool =
        some "trello" ∧
      (resolve (some ⟨some "trello", none⟩)
        ⟨some (some ⟨"k", "w"⟩), some (some ⟨"p", "j"⟩)⟩
        ⟨some "k", some "t", some "b", some "w", some "p", some "j", some "trello"⟩).isConfigured =
        false ∧
      (resolve (some ⟨some "trello", none⟩)
        ⟨some (some ⟨"k", "w"⟩), some (some ⟨"p", "j"⟩)⟩
        ⟨some "k", some "t", some "b", some "w", some "p", some "j", some "trello"⟩).platformConfig =
        none ∧
      resolve (some ⟨some "trello", none⟩)
        ⟨some (some ⟨"k", "w"⟩), some (some ⟨"p", "j"⟩)⟩
        ⟨some "k", some "t", some "b", some "w", some "p", some "j", some "trello"⟩ =
      resolve (some ⟨some "trello", none⟩) ⟨none, none⟩ emptyCookies :=
  resolve_nav_platform_without_config "trello"
    ⟨some (some ⟨"k", "w"⟩), some (some ⟨"p", "j"⟩)⟩ ⟨none, none⟩
    ⟨some "k", some "t", some "b", some "w", some "p", some "j", some "trello"⟩
    emptyCookies (by decide)

/-- C4 (code bug): on the failure path of the stop operation the tick is
not cancelled.  At a concrete recording state with a live interval, when
the audio-recorder stop throws, the state exits `recording` to `idle` but
the interval handle remains set, and a subsequent tick still increments
the elapsed-time counter. -/
theorem stop_failure_leaks_interval :
    (stopRecording (.stopFails "Device error")
        { baseState with isConfigured := true, recordingStatus := .recording,
                         intervalActive := true, recordingTime := 5 }).1.recordingStatus =
        .idle ∧
      (stopRecording (.stopFails "Device error")
        { baseState with isConfigured := true, recordingStatus := .recording,
                         intervalActive := true, recordingTime := 5 }).1.intervalActive =
        true ∧
      (tick (stopRecording (.stopFails "Device error")
        { baseState with isConfigured := true, recordingStatus := .recording,
                         intervalActive := true, recordingTime := 5 }).1).recordingTime =
        6 := by
  exact ⟨rfl, rfl, rfl⟩

lemma resolveAsanaStore_isSome (ls : LocalStore) (ck : CookieStore)
    (h : (resolveAsanaStore ls ck).isConfigured = true) :
    (resolveAsanaStore ls ck).platformConfig.isSome = true := by
  rcases hls : ls.asana_config with _ | (_ | c) <;>
    simp only [resolveAsanaStore, hls] at h ⊢
  · exact resolveCookies_isSome ck h
  · exact resolveCookies_isSome ck h
  · rfl

lemma resolveStore_isSome (ls : LocalStore) (ck : CookieStore)
    (h : (resolveStore ls ck).isConfigured = true) :
    (resolveStore ls ck).platformConfig.isSome = true := by
  rcases hls : ls.linear_config with _ | (_ | c) <;>
    simp only [resolveStore, hls] at h ⊢
  · exact resolveAsanaStore_isSome ls ck h
  · exact resolveAsanaStore_isSome ls ck h
  · rfl

lemma resolveStore_config_cookie (ls : LocalStore) (ck : CookieStore)
    (h2 : tier2Platform ls = none) :
    (resolveStore ls ck).platformConfig = (resolveCookies ck).platformConfig := by
  rcases hl : ls.linear_config with _ | (_ | c) <;>
    rcases ha : ls.asana_config with _ | (_ | d) <;>
    simp_all [tier2Platform, resolveStore, resolveAsanaStore]

/-- C2 counterexample: the navigation-payload resolution path marks an
incomplete variant as configured.  With a navigation payload carrying
platform `linear` and the all-empty linear config, resolution yields
`isConfigured = true` while the resolved config is incomplete. -/
theorem resolve_nav_marks_incomplete_configured :
    (resolve (some ⟨some "linear", some (.linear ⟨"", ""⟩)⟩)
        ⟨none, none⟩ emptyCookies).isConfigured = true ∧
      (resolve (some ⟨some "linear", some (.linear ⟨"", ""⟩)⟩)
        ⟨none, none⟩ emptyCookies).platformConfig = some (.linear ⟨"", ""⟩) ∧
      (PlatformConfig.linear ⟨"", ""⟩).complete = false := by
  refine ⟨rfl, rfl, ?_⟩
  decide

/-- C2 (amended): `isConfigured = true` always implies a config is
present, and whenever resolution reaches the cookie tier (no truthy
navigation platform and no parseable tier-2 record) every resolved config
is complete; the navigation-payload and tier-2 paths, however, mark
configured without completeness validation. -/
theorem isConfigured_presence_and_cookie_completeness (nav : Option NavState)
    (ls : LocalStore) (ck : CookieStore) :
    ((resolve nav ls ck).isConfigured = true →
        (resolve nav ls ck).platformConfig.isSome = true) ∧
      (navShortCircuits nav = false → tier2Platform ls = none →
        ∀ c, (resolve nav ls ck).platformConfig = some c → c.complete = true) := by
  constructor
  · intro h
    rcases nav with _ | st
    · exact resolveStore_isSome ls ck h
    · by_cases hp : strTruthy st.platform = true
      · simp only [resolve, hp, if_pos] at h ⊢
        exact h
      · simp only [resolve, hp, if_neg, Bool.not_eq_true] at h ⊢
        exact resolveStore_isSome ls ck h
  · intro h1 h2 c hc
    have hstore : (resolveStore ls ck).platformConfig = some c := by
      rcases nav with _ | st
      · exact hc
      · simp only [navShortCircuits] at h1
        simpa only [resolve, h1, Bool.false_eq_true, if_neg] using hc
    rw [resolveStore_config_cookie ls ck h2] at hstore
    exact resolveCookies_complete ck c hstore

/-- Witness for C2's amended theorem: with no navigation payload, an
unparseable asana record and complete trello cookies, the resolved config
is present and complete. -/
theorem isConfigured_presence_and_cookie_completeness_witness :
    (resolve none ⟨none, some none⟩
        ⟨some "k", some "t", some "b", none, none, none, some "trello"⟩).platformConfig.isSome =
        true ∧
      (PlatformConfig.trello ⟨"k", "t", "b"⟩).complete = true :=
  ⟨(isConfigured_presence_and_cookie_completeness none ⟨none, some none⟩
      ⟨some "k", some "t", some "b", none, none, none, some "trello"⟩).1 (by decide),
   (isConfigured_presence_and_cookie_completeness none ⟨none, some none⟩
      ⟨some "k", some "t", some "b", none, none, none, some "trello"⟩).2 rfl rfl
      (.trello ⟨"k", "t", "b"⟩) (by decide)⟩

/-- A concrete configured state currently in `recording` with a live
one-second tick. -/
def recState : DashState :=
  { baseState with isConfigured := true, recordingStatus := .recording,
                   intervalActive := true }

/-- C3 counterexample: a user stop action taken in state `recording` does
not pass through `processing`.  At a concrete recording state with a
successfully parsed gateway response, the only status ever set during the
stop is `idle`. -/
theorem stop_from_recording_never_processing :
    recState.recordingStatus = .recording ∧
      (stopRecording (.ok ⟨none, none⟩) recState).2 = [RecordingStatus.idle] ∧
      RecordingStatus.processing ∉ (stopRecording (.ok ⟨none, none⟩) recState).2 := by
  refine ⟨rfl, rfl, ?_⟩
  decide

/-- C3 (amended): a stop taken while recording transitions directly from
`recording` to `idle` without ever setting `processing`, and once the
gateway response or its failure has been handled the status is `idle`
unconditionally. -/
theorem stop_direct_to_idle (o : StopOutcome) (s : DashState)
    (h : s.recordingStatus = .recording) :
    (stopRecording o s).1.recordingStatus = .idle ∧
      RecordingStatus.processing ∉ (stopRecording o s).2 := by
  rcases o with msg | msg | _ | resp
  · simp [stopRecording]
  · simp [stopRecording]
  · simp [stopRecording]
  · rcases resp with ⟨t, rs⟩
    by_cases ht : strTruthy t = true <;> cases rs <;>
      simp [stopRecording, ht]

/-- Witness for C3's amended theorem at a concrete recording state with a
parse failure from the gateway. -/
theorem stop_direct_to_idle_witness :
    (stopRecording .parseFails recState).1.recordingStatus = .idle ∧
      RecordingStatus.processing ∉ (stopRecording .parseFails recState).2 :=
  stop_direct_to_idle .parseFails recState rfl

/-- C6: if the navigation payload carries a (truthy) platform and the
tier-2 durable records imply a different platform, resolution yields the
navigation payload's platform. -/
theorem resolve_nav_precedence (st : NavState) (ls : LocalStore)
    (ck : CookieStore) (q : String) (hp : strTruthy st.platform = true)
    (hq : tier2Platform ls = some q) (hne : st.platform ≠ some q) :
    (resolve (some st) ls ck).selectedTool = st.platform := by
  rcases st with ⟨p, cfg⟩
  cases p with
  | none => simp [strTruthy] at hp
  | some p => simp [resolve, strTruthy, getStr] at hp ⊢ <;> simp [hp]

/-- Witness for C6: navigation payload says `trello`, tier-2 holds a
parseable linear record; the resolved platform is `trello`. -/
theorem resolve_nav_precedence_witness :
    (resolve (some ⟨some "trello", none⟩) ⟨some (some ⟨"k", "w"⟩), none⟩
        emptyCookies).selectedTool = some "trello" :=
  resolve_nav_precedence ⟨some "trello", none⟩ ⟨some (some ⟨"k", "w"⟩), none⟩
    emptyCookies "linear" (by decide) rfl (by decide)

lemma resolveCookies_consoleErrors (ck : CookieStore) :
    (resolveCookies ck).consoleErrors = 0 := by
  rw [resolveCookies]
  split_ifs <;> rfl

lemma resolveCookies_single_log (ck : CookieStore) :
    ∃ m, (resolveCookies ck).logs = [(LogType.info, m)] := by
  rw [resolveCookies]
  split_ifs <;> exact ⟨_, rfl⟩

lemma resolveStore_single_log (ls : LocalStore) (ck : CookieStore) :
    ∃ m, (resolveStore ls ck).logs = [(LogType.info, m)] := by
  rcases hl : ls.linear_config with _ | (_ | c) <;>
    rcases ha : ls.asana_config with _ | (_ | d) <;>
    simp only [resolveStore, resolveAsanaStore, hl, ha] <;>
    first
      | exact ⟨_, rfl⟩
      | exact resolveCookies_single_log ck

lemma resolveStore_scrub (ls : LocalStore) (ck : CookieStore) :
    (resolveStore ls ck).session = (resolveStore ls.scrub ck).session ∧
      (resolveStore ls ck).consoleErrors =
        (resolveStore ls.scrub ck).consoleErrors + parseFailuresRead none ls := by
  rcases hl : ls.linear_config with _ | (_ | c) <;>
    rcases ha : ls.asana_config with _ | (_ | d) <;>
    simp [resolveStore, resolveAsanaStore, LocalStore.scrub, parseFailuresRead,
      navShortCircuits, ResolveResult.session, hl, ha, resolveCookies_consoleErrors]

/-- C7: every resolution path emits exactly one informational LogEntry;
a present-but-unparseable tier-2 record is treated exactly as an absent
one for the session-visible outcome, with each unparseable record the
resolver actually reads producing one `console.error`. -/
theorem resolve_one_info_log_and_parse_failure_is_absence
    (nav : Option NavState) (ls : LocalStore) (ck : CookieStore) :
    (∃ m, (resolve nav ls ck).logs = [(LogType.info, m)]) ∧
      (resolve nav ls ck).session = (resolve nav ls.scrub ck).session ∧
      (resolve nav ls ck).consoleErrors =
        (resolve nav ls.scrub ck).consoleErrors + parseFailuresRead nav ls := by
  rcases nav with _ | st
  · exact ⟨resolveStore_single_log ls ck,
      by simpa [resolve, parseFailuresRead, navShortCircuits] using
        resolveStore_scrub ls ck⟩
  · by_cases hp : strTruthy st.platform = true
    · refine ⟨⟨"Connected to " ++ capitalize (getStr st.platform), ?_⟩, ?_, ?_⟩ <;>
        simp [resolve, hp, parseFailuresRead, navShortCircuits]
    · have h1 : ∀ ls' : LocalStore,
          resolve (some st) ls' ck = resolveStore ls' ck := by
        intro ls'
        simp [resolve, hp]
      rw [h1, h1]
      refine ⟨resolveStore_single_log ls ck, ?_, ?_⟩
      · exact (resolveStore_scrub ls ck).1
      · have := (resolveStore_scrub ls ck).2
        simpa [parseFailuresRead, navShortCircuits, hp] using this

/-- C8: a save attempt with any required field of the selected platform's
variant empty is a no-op on both save surfaces: the configuration form's
submit leaves the whole dashboard state (resolved session, localStorage,
cookies, activity log) unchanged, and the configure page's submit leaves
localStorage unchanged, navigates nowhere, and only fires the
missing-fields alert. -/
theorem save_with_empty_required_field_is_noop (tool : String)
    (config : PlatformConfig) (s : DashState) (appId : String)
    (formData : String → String) (ls : LocalStore)
    (h1 : config.complete = false)
    (h2 : ∃ f ∈ configureAppFields appId, formData f = "") :
    configFormSubmit tool config s = s ∧
      configureAppSubmit appId formData ls = (ls, none, true) := by
  constructor
  · rcases config with c | c | c <;>
      simp only [configFormSubmit] <;>
      split_ifs <;>
      first
        | rfl
        | simp_all [PlatformConfig.complete]
  · rcases h2 with ⟨f, hf, hval⟩
    have hm : f ∈ (configureAppFields appId).filter (fun f => formData f = "") :=
      List.mem_filter.2 ⟨hf, by simp [hval]⟩
    have hne : (configureAppFields appId).filter (fun f => formData f = "") ≠ [] :=
      List.ne_nil_of_mem hm
    simp [configureAppSubmit, hne]

/-- Witness for C8: a linear save with an empty API key and a configure
page submit with an empty API key field both leave everything unchanged. -/
theorem save_with_empty_required_field_is_noop_witness :
    configFormSubmit "linear" (.linear ⟨"", "w"⟩) baseState = baseState ∧
      configureAppSubmit "linear" (fun f => if f = "apiKey" then "" else "w")
        ⟨none, none⟩ = (⟨none, none⟩, none, true) :=
  save_with_empty_required_field_is_noop "linear" (.linear ⟨"", "w"⟩) baseState
    "linear" (fun f => if f = "apiKey" then "" else "w") ⟨none, none⟩
    (by decide) ⟨"apiKey", by decide, by decide⟩

end Agilow
